import Mathlib

/-!
Verification of the Firepad collaborative-editing core against its
specification.  The development shallowly embeds the TypeScript sources:

* the three-state client synchronization state machine
  (`Synchronized` / `AwaitingConfirm` / `AwaitingWithBuffer`,
  `src/client.ts`, bundled in `cursor-widget.ts`);
* the `WrappedOperation` metadata wrapper (`wrapped-operation.ts`);
* the `EventEmitter` (`emitter.ts`);
* the `EditorClient` dispose logic (`editor-client.ts`);
* the Ace adapter index/position conversions (`ace-adapter.ts`,
  bundled in `cursor-widget.ts`).

The operation algebra itself (`TextOperation.transform` / `compose`) is not
part of the sources under study; the state machine only forwards to it, so
the embedding is parametric in an abstract operation type `Op` together with
abstract `transform : Op → Op → Op × Op` and `compose : Op → Op → Op`
functions, exactly as the TypeScript client delegates to the
`ITextOperation` interface.
-/

namespace Firepad

/-- The three synchronization states of the client
(`Synchronized`, `AwaitingConfirm`, `AwaitingWithBuffer`). -/
inductive ClientState (Op : Type) where
  | Synchronized : ClientState Op
  | AwaitingConfirm (outstanding : Op) : ClientState Op
  | AwaitingWithBuffer (outstanding : Op) (buffer : Op) : ClientState Op
deriving DecidableEq, Repr

/-- Calls the state-machine makes on its operator (`IBaseClient`):
`sendOperation` forwards an operation to the database adapter,
`applyOperation` applies a remote operation to the editor adapter. -/
inductive ClientEffect (Op : Type) where
  | sendOperation (operation : Op) : ClientEffect Op
  | applyOperation (operation : Op) : ClientEffect Op
deriving DecidableEq, Repr

/-- The error raised by `Utils.shouldNotGetCalled` when `serverAck` or
`serverRetry` is invoked with no pending operation (a `NoopError` with
message "There is no pending operation." in the source). -/
inductive ClientError where
  | NoPendingOp : ClientError
deriving DecidableEq, Repr

/-- `applyClient` of the three `IClientSynchronizationState` classes.
Returns the next state together with the list of operator calls made,
in order.
* `Synchronized.applyClient`: send the operation, go to `AwaitingConfirm`.
* `AwaitingConfirm.applyClient`: buffer it, go to `AwaitingWithBuffer`.
* `AwaitingWithBuffer.applyClient`: compose onto the buffer
  (`this._buffer.compose(operation)`). -/
def applyClient {Op : Type} (compose : Op → Op → Op)
    (state : ClientState Op) (operation : Op) :
    ClientState Op × List (ClientEffect Op) :=
  match state with
  | .Synchronized =>
      (.AwaitingConfirm operation, [.sendOperation operation])
  | .AwaitingConfirm outstanding =>
      (.AwaitingWithBuffer outstanding operation, [])
  | .AwaitingWithBuffer outstanding buffer =>
      (.AwaitingWithBuffer outstanding (compose buffer operation), [])

/-- `applyServer` of the three `IClientSynchronizationState` classes.
* `Synchronized.applyServer`: apply the operation to the editor, stay.
* `AwaitingConfirm.applyServer`: `pair = outstanding.transform(operation)`,
  apply `pair[1]`, new state `AwaitingConfirm(pair[0])`.
* `AwaitingWithBuffer.applyServer`:
  `pair1 = outstanding.transform(operation)`,
  `pair2 = buffer.transform(pair1[1])`, apply `pair2[1]`,
  new state `AwaitingWithBuffer(pair1[0], pair2[0])`. -/
def applyServer {Op : Type} (transform : Op → Op → Op × Op)
    (state : ClientState Op) (operation : Op) :
    ClientState Op × List (ClientEffect Op) :=
  match state with
  | .Synchronized =>
      (.Synchronized, [.applyOperation operation])
  | .AwaitingConfirm outstanding =>
      let pair := transform outstanding operation
      (.AwaitingConfirm pair.1, [.applyOperation pair.2])
  | .AwaitingWithBuffer outstanding buffer =>
      let pair1 := transform outstanding operation
      let pair2 := transform buffer pair1.2
      (.AwaitingWithBuffer pair1.1 pair2.1, [.applyOperation pair2.2])

/-- `serverAck` of the three `IClientSynchronizationState` classes.
* `Synchronized.serverAck`: `Utils.shouldNotGetCalled` throws.
* `AwaitingConfirm.serverAck`: back to the `_synchronized` singleton.
* `AwaitingWithBuffer.serverAck`: send the buffer,
  go to `AwaitingConfirm(buffer)`. -/
def serverAck {Op : Type} (state : ClientState Op) :
    Except ClientError (ClientState Op × List (ClientEffect Op)) :=
  match state with
  | .Synchronized => .error .NoPendingOp
  | .AwaitingConfirm _ => .ok (.Synchronized, [])
  | .AwaitingWithBuffer _ buffer =>
      .ok (.AwaitingConfirm buffer, [.sendOperation buffer])

/-- `serverRetry` of the three `IClientSynchronizationState` classes.
* `Synchronized.serverRetry`: `Utils.shouldNotGetCalled` throws.
* `AwaitingConfirm.serverRetry`: resend the outstanding op, return `this`.
* `AwaitingWithBuffer.serverRetry`:
  `outstanding.compose(buffer)` is sent and becomes the new outstanding op
  of an `AwaitingConfirm` state. -/
def serverRetry {Op : Type} (compose : Op → Op → Op)
    (state : ClientState Op) :
    Except ClientError (ClientState Op × List (ClientEffect Op)) :=
  match state with
  | .Synchronized => .error .NoPendingOp
  | .AwaitingConfirm outstanding =>
      .ok (.AwaitingConfirm outstanding, [.sendOperation outstanding])
  | .AwaitingWithBuffer outstanding buffer =>
      let merged := compose outstanding buffer
      .ok (.AwaitingConfirm merged, [.sendOperation merged])

/-- Events that the `Client` wrapper class dispatches to its current
state object. -/
inductive ClientEvent (Op : Type) where
  | applyClient (operation : Op) : ClientEvent Op
  | applyServer (operation : Op) : ClientEvent Op
  | serverAck : ClientEvent Op
  | serverRetry : ClientEvent Op
deriving DecidableEq, Repr

/-- One public call on the `Client` class: it dispatches the event to the
current state and stores the returned state via `_setState`. -/
def clientStep {Op : Type} (transform : Op → Op → Op × Op)
    (compose : Op → Op → Op) (state : ClientState Op)
    (event : ClientEvent Op) :
    Except ClientError (ClientState Op × List (ClientEffect Op)) :=
  match event with
  | .applyClient operation => .ok (applyClient compose state operation)
  | .applyServer operation => .ok (applyServer transform state operation)
  | .serverAck => serverAck state
  | .serverRetry => serverRetry compose state

/-- The observable outcome of one public call on the `Client` class.  In
the source a thrown `NoopError` propagates out of `serverAck` before
`this._setState(...)` runs, so on error the stored state is unchanged and
no operator call was made; the caller observes the exception. -/
def clientApply {Op : Type} (transform : Op → Op → Op × Op)
    (compose : Op → Op → Op) (state : ClientState Op)
    (event : ClientEvent Op) :
    ClientState Op × List (ClientEffect Op) × Option ClientError :=
  match clientStep transform compose state event with
  | .ok (state', effects) => (state', effects, none)
  | .error e => (state, [], some e)

/-- A whole session of a `Client` instance: the constructor starts in the
`_synchronized` singleton state, then each external callback is processed
synchronously.  Accumulates the state, the ordered log of operator calls,
and the errors thrown out of individual calls (each external call is
independent, so an exception in one does not stop later calls). -/
def clientRun {Op : Type} (transform : Op → Op → Op × Op)
    (compose : Op → Op → Op) (events : List (ClientEvent Op)) :
    ClientState Op × List (ClientEffect Op) × List ClientError :=
  events.foldl
    (fun acc event =>
      let r := clientApply transform compose acc.1 event
      (r.1, acc.2.1 ++ r.2.1, acc.2.2 ++ r.2.2.toList))
    (.Synchronized, [], [])

/-- The subsequence of `sendOperation` calls in an effect log. -/
def sentOperations {Op : Type} (effects : List (ClientEffect Op)) :
    List Op :=
  effects.filterMap fun e =>
    match e with
    | .sendOperation operation => some operation
    | .applyOperation _ => none

/-- `WrappedOperation` (`wrapped-operation.ts`): a text operation together
with optional operation metadata (`_metadata` may be `null`). -/
structure WrappedOperation (Op Meta : Type) where
  operation : Op
  metadata : Option Meta
deriving DecidableEq, Repr

/-- `WrappedOperation.transform`:
`pair = this._operation.transform(other._operation)`;
the first wrapped result carries
`this._metadata?.transform(other._operation)` and the second carries
`other._metadata?.transform(this._operation)` (the optional-chaining
operator maps `null` to `null`).  Parametric in the inner
`ITextOperation.transform` and `IOperationMeta.transform`. -/
def WrappedOperation.transform {Op Meta : Type}
    (opTransform : Op → Op → Op × Op)
    (metaTransform : Meta → Op → Meta)
    (self other : WrappedOperation Op Meta) :
    WrappedOperation Op Meta × WrappedOperation Op Meta :=
  let pair := opTransform self.operation other.operation
  (⟨pair.1, self.metadata.map fun m => metaTransform m other.operation⟩,
   ⟨pair.2, other.metadata.map fun m => metaTransform m self.operation⟩)

/-- `EventEmitter` (`emitter.ts`): an optional list of allowed events and a
map from event name to listener list, modelled as an association list whose
keys are the event names that have ever been touched by `on`.  Listeners
are abstract (`L`). -/
structure EventEmitter (L : Type) where
  allowedEvents : Option (List String)
  eventListeners : List (String × List L)
deriving DecidableEq, Repr

/-- Errors observable from `EventEmitter` methods:
`UnknownEvent` is the `InvalidEventError` thrown by
`Utils.shouldNotBeListenedTo`; `TypeError` is the JavaScript `TypeError`
raised when a member inherited from `Object.prototype` (a truthy,
non-iterable, non-array value) is iterated by `for..of` or has `push`
called on it. -/
inductive EmitterError where
  | UnknownEvent (event : String) : EmitterError
  | TypeError : EmitterError
deriving DecidableEq, Repr

/-- Own-property lookup in the `_eventListeners` store: `none` when the
event was never stored as an own key.  This is only half of the JavaScript
member access `this._eventListeners[event]`; the full semantics, which
falls through to the `Object.prototype` chain, is `objectLookup` below. -/
def findListeners {L : Type} (listeners : List (String × List L))
    (event : String) : Option (List L) :=
  match listeners with
  | [] => none
  | (key, value) :: rest =>
      if key = event then some value else findListeners rest event

/-- The property names of `Object.prototype`.  `_eventListeners` is a
plain object literal (`{}`), so reading any of these keys when no own
property shadows them yields the inherited member — a truthy function
(or, for `__proto__`, the prototype object itself), never an array. -/
def objectPrototypeKeys : List String :=
  ["constructor", "hasOwnProperty", "isPrototypeOf",
   "propertyIsEnumerable", "toLocaleString", "toString", "valueOf",
   "__proto__", "__defineGetter__", "__defineSetter__",
   "__lookupGetter__", "__lookupSetter__"]

/-- The possible results of the member access
`this._eventListeners[event]` on a plain object: an own property (always
a listener array in this program), a member inherited from
`Object.prototype` (truthy, not an array, not iterable), or `undefined`. -/
inductive PropLookup (L : Type) where
  | own (listeners : List L) : PropLookup L
  | inherited : PropLookup L
  | absent : PropLookup L
deriving DecidableEq, Repr

/-- Full JavaScript semantics of `this._eventListeners[event]`: an own
key shadows the prototype; otherwise a key of `Object.prototype` yields
the inherited member; otherwise `undefined`. -/
def objectLookup {L : Type} (listeners : List (String × List L))
    (event : String) : PropLookup L :=
  match findListeners listeners event with
  | some value => .own value
  | none =>
      if event ∈ objectPrototypeKeys then .inherited else .absent

/-- Store into `this._eventListeners[event]`. -/
def storeListeners {L : Type} (listeners : List (String × List L))
    (event : String) (value : List L) : List (String × List L) :=
  match listeners with
  | [] => [(event, value)]
  | (key, old) :: rest =>
      if key = event then (event, value) :: rest
      else (key, old) :: storeListeners rest event value

/-- `EventEmitter._validateEvent`: passes when no `allowedEvents` list was
given or the event is in it, otherwise `Utils.shouldNotBeListenedTo`
throws. -/
def EventEmitter.validateEvent {L : Type} (e : EventEmitter L)
    (event : String) : Except EmitterError Unit :=
  match e.allowedEvents with
  | none => .ok ()
  | some allowed =>
      if event ∈ allowed then .ok ()
      else .error (.UnknownEvent event)

/-- `EventEmitter.on`: validates the event, then
`this._eventListeners[event] ||= []` and pushes the listener.  On a key of
`Object.prototype` with no own entry, the `||=` sees the inherited truthy
member, skips the assignment, and `push` on that member throws a
`TypeError`. -/
def EventEmitter.on {L : Type} (e : EventEmitter L) (event : String)
    (listener : L) : Except EmitterError (EventEmitter L) :=
  match e.validateEvent event with
  | .error err => .error err
  | .ok () =>
      match objectLookup e.eventListeners event with
      | .own current =>
          .ok { e with
                eventListeners :=
                  storeListeners e.eventListeners event
                    (current ++ [listener]) }
      | .inherited => .error .TypeError
      | .absent =>
          .ok { e with
                eventListeners :=
                  storeListeners e.eventListeners event [listener] }

/-- `EventEmitter.trigger`: reads `this._eventListeners[event] || []` — no
`_validateEvent` call — and invokes each listener with `for..of`.  An own
listener array (even an empty one, which is truthy) iterates normally; an
`undefined` lookup is replaced by `[]`; but a member inherited from
`Object.prototype` is truthy and non-iterable, so the `for..of` throws a
`TypeError`.  The `.ok` result is the list of listeners invoked. -/
def EventEmitter.trigger {L : Type} (e : EventEmitter L)
    (event : String) : Except EmitterError (List L) :=
  match objectLookup e.eventListeners event with
  | .own eventListeners => .ok eventListeners
  | .inherited => .error .TypeError
  | .absent => .ok []

/-- `EventEmitter.dispose`: `for (const event in this._eventListeners)`
set `this._eventListeners[event] = []` — every key keeps its entry with an
empty listener list. -/
def EventEmitter.dispose {L : Type} (e : EventEmitter L) :
    EventEmitter L :=
  { e with eventListeners := e.eventListeners.map fun p => (p.1, []) }

/-- The fields of `EditorClient` that its `dispose` touches
(`editor-client.ts`): the pending cursor timer, the nullable emitter, the
nullable undo manager (a pair of stacks of wrapped operations), and the
remote-client map. -/
structure EditorClient (L W C : Type) where
  sendCursorTimeout : Option Nat
  emitter : Option (EventEmitter L)
  undoManager : Option (List W × List W)
  clients : List (String × C)
deriving DecidableEq, Repr

/-- `EditorClient.dispose`: each nullable field is guarded
(`if (this._sendCursorTimeout) ...` and so on), cleared
(`clearTimeout` / `emitter.dispose()` / `undoManager.dispose()`) and set
to `null`; finally `this._clients.clear()`.  Whether or not a guard fires,
every field ends as `null` (resp. empty). -/
def EditorClient.dispose {L W C : Type} (ec : EditorClient L W C) :
    EditorClient L W C :=
  { sendCursorTimeout :=
      match ec.sendCursorTimeout with
      | some _ => none
      | none => ec.sendCursorTimeout,
    emitter :=
      match ec.emitter with
      | some _ => none
      | none => ec.emitter,
    undoManager :=
      match ec.undoManager with
      | some _ => none
      | none => ec.undoManager,
    clients := [] }

/-- `AceAdapter._posFromIndex` loop body: walk `this._aceDocument.$lines`,
breaking at the first line with `index <= line.length`, otherwise
subtracting `line.length + 1`; returns the 0-based loop variable `row` and
the remaining `index`. -/
def posFromIndexLoop (lines : List String) (index : Nat) : Nat × Nat :=
  match lines with
  | [] => (0, index)
  | line :: rest =>
      if index ≤ line.length then (0, index)
      else
        let r := posFromIndexLoop rest (index - (line.length + 1))
        (r.1 + 1, r.2)

/-- `AceAdapter._posFromIndex`: returns
`row: row + 1, column: index` — note the `+ 1` on the row. -/
def posFromIndex (lines : List String) (index : Nat) : Nat × Nat :=
  let r := posFromIndexLoop lines index
  (r.1 + 1, r.2)

/-- `AceAdapter._indexFromPosfunction`: sums
`this._lastDocLines[i].length + 1` for `i` from `0` to `position.row - 1`
and adds `position.column`.  Accessing a row index past the end of
`_lastDocLines` dereferences `undefined` in the source and throws, hence
the `Option`. -/
def indexFromPosfunction (lines : List String) (position : Nat × Nat) :
    Option Nat :=
  if position.1 ≤ lines.length then
    some (((lines.take position.1).map
      (fun line => line.length + 1)).sum + position.2)
  else
    none

/-- C1: `applyServer(S)` follows the transition table: in `Synchronized`
it applies `S` to the editor and stays; in `AwaitingConfirm(O)` it computes
`(O', S') = transform(O, S)`, applies `S'`, and moves to
`AwaitingConfirm(O')`; in `AwaitingWithBuffer(O, B)` it computes
`(O', S') = transform(O, S)`, then `(B', S'') = transform(B, S')`, applies
`S''`, and moves to `AwaitingWithBuffer(O', B')`. -/
theorem applyServer_follows_transition_table {Op : Type}
    (transform : Op → Op → Op × Op) (S : Op) :
    (applyServer transform .Synchronized S
        = (.Synchronized, [.applyOperation S])) ∧
    (∀ O : Op,
        applyServer transform (.AwaitingConfirm O) S
          = (.AwaitingConfirm (transform O S).1,
             [.applyOperation (transform O S).2])) ∧
    (∀ O B : Op,
        applyServer transform (.AwaitingWithBuffer O B) S
          = (.AwaitingWithBuffer (transform O S).1
               (transform B (transform O S).2).1,
             [.applyOperation (transform B (transform O S).2).2])) :=
  ⟨rfl, fun _ => rfl, fun _ _ => rfl⟩

/-- C2: `applyClient(A)` follows the transition table: in `Synchronized`
it sends exactly `A` (one `sendOperation` call) and moves to
`AwaitingConfirm(A)`; in `AwaitingConfirm(O)` it moves to
`AwaitingWithBuffer(O, A)` with no operator call; in
`AwaitingWithBuffer(O, B)` it moves to
`AwaitingWithBuffer(O, compose(B, A))` with no operator call. -/
theorem applyClient_follows_transition_table {Op : Type}
    (compose : Op → Op → Op) (A : Op) :
    (applyClient compose .Synchronized A
        = (.AwaitingConfirm A, [.sendOperation A])) ∧
    (∀ O : Op,
        applyClient compose (.AwaitingConfirm O) A
          = (.AwaitingWithBuffer O A, [])) ∧
    (∀ O B : Op,
        applyClient compose (.AwaitingWithBuffer O B) A
          = (.AwaitingWithBuffer O (compose B A), [])) :=
  ⟨rfl, fun _ => rfl, fun _ _ => rfl⟩

/-- C3: `serverAck` in `AwaitingConfirm(O)` moves to `Synchronized` with
no operator call; `serverAck` in `AwaitingWithBuffer(O, B)` performs
exactly one `sendOperation(B)` call and moves to `AwaitingConfirm(B)`. -/
theorem serverAck_follows_transition_table {Op : Type} :
    (∀ O : Op,
        serverAck (ClientState.AwaitingConfirm O)
          = .ok (.Synchronized, ([] : List (ClientEffect Op)))) ∧
    (∀ O B : Op,
        serverAck (ClientState.AwaitingWithBuffer O B)
          = .ok (.AwaitingConfirm B, [.sendOperation B])) :=
  ⟨fun _ => rfl, fun _ _ => rfl⟩

/-- C4: `serverRetry` in `AwaitingConfirm(O)` performs exactly one
`sendOperation(O)` call and stays in `AwaitingConfirm(O)`; in
`AwaitingWithBuffer(O, B)` it computes `M = compose(O, B)`, performs
exactly one `sendOperation(M)` call, and moves to `AwaitingConfirm(M)`. -/
theorem serverRetry_follows_transition_table {Op : Type}
    (compose : Op → Op → Op) :
    (∀ O : Op,
        serverRetry compose (ClientState.AwaitingConfirm O)
          = .ok (.AwaitingConfirm O, [.sendOperation O])) ∧
    (∀ O B : Op,
        serverRetry compose (ClientState.AwaitingWithBuffer O B)
          = .ok (.AwaitingConfirm (compose O B),
                 [.sendOperation (compose O B)])) :=
  ⟨fun _ => rfl, fun _ _ => rfl⟩

/-- C5: calling `serverAck` or `serverRetry` on a `Synchronized` client
raises `NoPendingOp`, makes no `sendOperation` or `applyOperation` call,
and leaves the stored state `Synchronized` (the exception propagates
before `_setState` runs). -/
theorem synchronized_ack_retry_raise_noPendingOp {Op : Type}
    (transform : Op → Op → Op × Op) (compose : Op → Op → Op) :
    clientApply transform compose .Synchronized .serverAck
        = (.Synchronized, [], some .NoPendingOp) ∧
    clientApply transform compose .Synchronized .serverRetry
        = (.Synchronized, [], some .NoPendingOp) :=
  ⟨rfl, rfl⟩

/-- C6: `w.transform(w2)` returns the pair whose inner operations are the
two components of `op.transform(op2)`, whose first metadata is `w`'s
metadata transformed through `w2`'s operation, and whose second metadata
is `w2`'s metadata transformed through `w`'s operation (with `null`
metadata staying `null` via optional chaining). -/
theorem wrappedOperation_transform_components {Op Meta : Type}
    (opTransform : Op → Op → Op × Op)
    (metaTransform : Meta → Op → Meta)
    (w w2 : WrappedOperation Op Meta) :
    (WrappedOperation.transform opTransform metaTransform w w2).1.operation
        = (opTransform w.operation w2.operation).1 ∧
    (WrappedOperation.transform opTransform metaTransform w w2).2.operation
        = (opTransform w.operation w2.operation).2 ∧
    (WrappedOperation.transform opTransform metaTransform w w2).1.metadata
        = w.metadata.map (fun m => metaTransform m w2.operation) ∧
    (WrappedOperation.transform opTransform metaTransform w w2).2.metadata
        = w2.metadata.map (fun m => metaTransform m w.operation) :=
  ⟨rfl, rfl, rfl, rfl⟩

/-- C7: the client state machine is deterministic — two `Client` instances
fed equal event sequences end in equal states, produce equal effect logs
(in particular equal `sendOperation` call sequences), and raise equal
error sequences. -/
theorem client_state_machine_deterministic {Op : Type}
    (transform : Op → Op → Op × Op) (compose : Op → Op → Op)
    (events₁ events₂ : List (ClientEvent Op))
    (h : events₁ = events₂) :
    clientRun transform compose events₁
        = clientRun transform compose events₂ ∧
    sentOperations (clientRun transform compose events₁).2.1
        = sentOperations (clientRun transform compose events₂).2.1 := by
  subst h
  exact ⟨rfl, rfl⟩

/-- Witness for C7 at a concrete event sequence over `Op = Nat`. -/
theorem client_state_machine_deterministic_witness :
    (([ClientEvent.applyClient 1, ClientEvent.serverAck]
        : List (ClientEvent Nat))
      = [ClientEvent.applyClient 1, ClientEvent.serverAck]) ∧
    clientRun (fun a b : Nat => (a, b)) Nat.add
        [ClientEvent.applyClient 1, ClientEvent.serverAck]
      = clientRun (fun a b : Nat => (a, b)) Nat.add
        [ClientEvent.applyClient 1, ClientEvent.serverAck] :=
  ⟨rfl,
   (client_state_machine_deterministic (fun a b : Nat => (a, b)) Nat.add
      [ClientEvent.applyClient 1, ClientEvent.serverAck]
      [ClientEvent.applyClient 1, ClientEvent.serverAck] rfl).1⟩

/-- C8: the Ace adapter conversions are not mutually inverse as they
stand.  On the single-line document `["ab"]` at index `0`,
`_posFromIndex` returns row `1` column `0` (the `row + 1` slip), and
`_indexFromPosfunction` maps that back to `3`, not `0`. -/
theorem posFromIndex_roundTrip_fails :
    posFromIndex ["ab"] 0 = (1, 0) ∧
    indexFromPosfunction ["ab"] (posFromIndex ["ab"] 0) = some 3 ∧
    indexFromPosfunction ["ab"] (posFromIndex ["ab"] 0) ≠ some 0 := by
  refine ⟨rfl, rfl, fun h => ?_⟩
  have h3 : (some 3 : Option Nat) = some 0 := by
    calc (some 3 : Option Nat)
        = indexFromPosfunction ["ab"] (posFromIndex ["ab"] 0) := rfl
      _ = some 0 := h
  simp at h3

/-- C9: `dispose` is idempotent for both the `EditorClient` and the
`EventEmitter`: a second call returns normally (every nullable field is
guarded) and leaves the component in exactly the state the first call
left it in. -/
theorem dispose_idempotent {L W C : Type} :
    (∀ ec : EditorClient L W C,
        ec.dispose.dispose = ec.dispose) ∧
    (∀ e : EventEmitter L,
        e.dispose.dispose = e.dispose) := by
  constructor
  · intro ec
    cases ec with
    | mk t em um cl =>
        cases t <;> cases em <;> cases um <;> rfl
  · intro e
    cases e with
    | mk allowed listeners =>
        simp [EventEmitter.dispose, List.map_map, Function.comp_def]

/-- C10 counterexample: `trigger` does throw for some event names.  On a
fresh emitter with no listener registered at all, `trigger("toString")`
retrieves the inherited `Object.prototype.toString` — truthy, so it
survives the `|| []` guard — and the `for..of` loop throws a `TypeError`
instead of invoking nothing and returning normally. -/
theorem trigger_throws_on_prototype_key :
    EventEmitter.trigger (⟨some ["evt"], []⟩ : EventEmitter Nat) "toString"
      = Except.error EmitterError.TypeError := by
  simp [EventEmitter.trigger, objectLookup, findListeners,
    objectPrototypeKeys]

/-- C10 (amended): `trigger` does not validate the event against the
`allowedEvents` list, and for every event name that is not a property of
`Object.prototype` it returns normally — invoking nothing when no listener
is stored for it (including names outside `allowedEvents`) — while `on`
with a name outside `allowedEvents` throws `UnknownEvent`. -/
theorem trigger_never_throws_off_prototype {L : Type} :
    (∀ (e : EventEmitter L) (event : String),
        event ∉ objectPrototypeKeys →
        ∃ invoked : List L, e.trigger event = .ok invoked) ∧
    (∀ (e : EventEmitter L) (event : String),
        event ∉ objectPrototypeKeys →
        findListeners e.eventListeners event = none →
        e.trigger event = .ok []) ∧
    (∀ (allowed : List String) (ls : List (String × List L))
        (event : String) (listener : L),
        event ∉ allowed →
        EventEmitter.on ⟨some allowed, ls⟩ event listener
          = .error (.UnknownEvent event)) := by
  refine ⟨?_, ?_, ?_⟩
  · intro e event h
    cases hf : findListeners e.eventListeners event with
    | none =>
        exact ⟨[], by simp [EventEmitter.trigger, objectLookup, hf, h]⟩
    | some value =>
        exact ⟨value, by simp [EventEmitter.trigger, objectLookup, hf]⟩
  · intro e event h hnone
    simp [EventEmitter.trigger, objectLookup, hnone, h]
  · intro allowed ls event listener h
    simp [EventEmitter.on, EventEmitter.validateEvent, h]

/-- Witness for the amended C10: an emitter restricted to the event "evt",
probed with the unregistered, disallowed, non-prototype event "other". -/
theorem trigger_never_throws_off_prototype_witness :
    ("other" ∉ objectPrototypeKeys ∧
      findListeners ([] : List (String × List Nat)) "other" = none ∧
      EventEmitter.trigger (⟨some ["evt"], []⟩ : EventEmitter Nat) "other"
        = Except.ok []) ∧
    ("other" ∉ ["evt"] ∧
      EventEmitter.on (⟨some ["evt"], []⟩ : EventEmitter Nat) "other" 0
        = Except.error (.UnknownEvent "other")) :=
  ⟨⟨by decide, rfl,
    trigger_never_throws_off_prototype.2.1 ⟨some ["evt"], []⟩ "other"
      (by decide) rfl⟩,
   ⟨by decide,
    trigger_never_throws_off_prototype.2.2 ["evt"] [] "other" 0
      (by decide)⟩⟩

end Firepad

